import Mathlib

/-!
Shallow embedding of the Pellicula backend (session/identity and favourites
subsystems), translated from:
  backend/src/controllers/authController.ts
  backend/src/controllers/favouriteController.ts
  backend/src/middleware/auth.ts
  backend/src/models/user.ts
  backend/src/utils/tmdbApi.ts (treated as the external catalog client)

Modelling conventions:
- The Mongo collection is a list of user records in insertion ("natural")
  order; `findOne` is `List.find?` over that order, `user.save()` on an
  existing document replaces the record with the same `_id`.
- Mongo ObjectIds are natural numbers; a freshly inserted document gets an
  id distinct from all earlier ones (modelled as the store length).
- bcryptjs (external library) is modelled by an injective tagging function,
  keeping its contract: `compare p (hash p)` holds, and `compare p h` holds
  only when `h` is the hash of `p`.
- jsonwebtoken (external library): a signed token is a record of its claims,
  the signing secret and the absolute expiry; `verify` succeeds exactly when
  the secret matches and the expiry is in the future. The string-level
  base64 encoding is abstracted by a `decode` parameter in the middleware.
- The mongoose schema's `trim`/`lowercase` setters are identity on every
  input considered here (all concrete inputs are already trimmed lowercase);
  its length validators run at `save()` and a failure there is caught by the
  controller's catch block, which answers 500.
-/

namespace Pellicula

/-- Model of bcryptjs `hash` at cost factor 12: a salted one-way transform.
Modelled as injective tagging so that `compare` can be stated exactly. -/
def bcryptHash (plaintext : String) : String :=
  "bcrypt12$" ++ plaintext

/-- Model of bcryptjs `compare plaintext stored`. -/
def bcryptCompare (plaintext stored : String) : Bool :=
  stored == bcryptHash plaintext

/-- A persisted user document (backend/src/models/user.ts, types/index.ts).
`password` stores the credential hash; `createdAt` is immutable metadata no
claim depends on and is omitted. -/
structure User where
  id : Nat
  username : String
  email : String
  password : String
  favourites : List String
deriving Repr, DecidableEq

/-- The users collection in insertion order. -/
abbrev Store := List User

/-- `User.findOne({ $or: [{ email }, { username }] })`: first document in
natural order matching either field. -/
def findOneByEmailOrUsername (s : Store) (email username : String) : Option User :=
  s.find? (fun u => u.email == email || u.username == username)

/-- `User.findOne({ email })`. -/
def findOneByEmail (s : Store) (email : String) : Option User :=
  s.find? (fun u => u.email == email)

/-- `User.findById(userId)`. -/
def findById (s : Store) (id : Nat) : Option User :=
  s.find? (fun u => u.id == id)

/-- `user.save()` on an existing document: replace the record carrying the
same `_id`. -/
def saveUpdated (s : Store) (u : User) : Store :=
  s.map (fun v => if v.id == u.id then u else v)

/-- Mongoose schema validation run at `save()` (backend/src/models/user.ts):
all three fields required (non-empty strings), username between 3 and 20
characters, password (the stored hash) at least 6 characters. -/
def schemaValid (u : User) : Prop :=
  u.username ≠ "" ∧ 3 ≤ u.username.length ∧ u.username.length ≤ 20 ∧
  u.email ≠ "" ∧ u.password ≠ "" ∧ 6 ≤ u.password.length

instance (u : User) : Decidable (schemaValid u) := by
  unfold schemaValid; infer_instance

/-- JWT payload signed by the auth controller. -/
structure Claims where
  userId : Nat
  username : String
  email : String
deriving Repr, DecidableEq

/-- A signed token: claims plus signature (the signing secret) plus the
absolute expiry derived from `expiresIn`. -/
structure SignedToken where
  claims : Claims
  secret : String
  expiresAt : Nat
deriving Repr, DecidableEq

/-- `expiresIn: '7d'` in seconds. -/
def sevenDays : Nat := 7 * 24 * 60 * 60

/-- `jwt.sign(claims, secret, { expiresIn: '7d' })`. -/
def jwtSign (c : Claims) (secret : String) (now : Nat) : SignedToken :=
  { claims := c, secret := secret, expiresAt := now + sevenDays }

/-- `jwt.verify(token, secret)`: succeeds exactly when the signature checks
out and the token is not yet expired; everything else is one opaque error. -/
def jwtVerify (t : SignedToken) (secret : String) (now : Nat) : Option Claims :=
  if t.secret = secret ∧ now < t.expiresAt then some t.claims else none

/-- Response of the auth endpoints: an error status with message, or a
success status carrying the token and the (public view of the) user. -/
inductive AuthResponse where
  | err (status : Nat) (message : String)
  | ok (status : Nat) (token : SignedToken) (user : User)
deriving Repr, DecidableEq

/-- `register` (backend/src/controllers/authController.ts lines 13-85):
presence check, password length check, single `$or` conflict lookup with the
message chosen by comparing the found document's email, then hash, save and
sign. A schema-validation failure thrown by `save()` lands in the catch
block, which answers 500. -/
def register (s : Store) (username email password secret : String) (now : Nat) :
    AuthResponse × Store :=
  if username = "" ∨ email = "" ∨ password = "" then
    (.err 400 "All fields are required", s)
  else if password.length < 6 then
    (.err 400 "Password must be at least 6 characters", s)
  else
    match findOneByEmailOrUsername s email username with
    | some existing =>
        (.err 400 (if existing.email = email then "Email already registered"
                   else "Username already taken"), s)
    | none =>
        let u : User :=
          { id := s.length, username := username, email := email,
            password := bcryptHash password, favourites := [] }
        if schemaValid u then
          (.ok 201 (jwtSign { userId := u.id, username := u.username,
                              email := u.email } secret now) u,
           s ++ [u])
        else
          (.err 500 "Server error during registration", s)

/-- `login` (authController.ts lines 93-148): presence check, lookup by
email, password comparison; both the unknown-email and the wrong-password
paths answer the same 401 message. The store is not modified. -/
def login (s : Store) (email password secret : String) (now : Nat) : AuthResponse :=
  if email = "" ∨ password = "" then
    .err 400 "Email and password are required"
  else
    match findOneByEmail s email with
    | none => .err 401 "Invalid credentials"
    | some u =>
        if bcryptCompare password u.password then
          .ok 200 (jwtSign { userId := u.id, username := u.username,
                             email := u.email } secret now) u
        else
          .err 401 "Invalid credentials"

/-- TMDB movie metadata (backend/src/types/index.ts); only the identifying
fields are carried, the remaining display fields play no role in any claim. -/
structure MovieDetails where
  id : Nat
  title : String
deriving Repr, DecidableEq

/-- The external catalog client (`getMovieDetails` in utils/tmdbApi.ts):
`none` models the thrown `Failed to fetch movie details`. -/
abbrev Catalog := String → Option MovieDetails

/-- Response of the favourites add/remove endpoints. -/
inductive FavResponse where
  | err (status : Nat) (message : String)
  | ok (message : String) (favourites : List String)
deriving Repr, DecidableEq

/-- `addToFavourites` (favouriteController.ts lines 6-47): id presence
check, catalog confirmation, user lookup, membership check, then push and
save. -/
def addToFavourites (cat : Catalog) (s : Store) (userId : Nat) (movieId : String) :
    FavResponse × Store :=
  if movieId = "" then
    (.err 400 "Movie ID is required", s)
  else
    match cat movieId with
    | none => (.err 404 "Movie not found", s)
    | some _ =>
        match findById s userId with
        | none => (.err 404 "User not found", s)
        | some u =>
            if u.favourites.contains movieId then
              (.err 400 "Movie already in favourites", s)
            else
              let u' : User := { u with favourites := u.favourites ++ [movieId] }
              (.ok "Movie added to favourites" u'.favourites, saveUpdated s u')

/-- `removeFromFavourites` (favouriteController.ts lines 49-71): user
lookup, then filter out every occurrence of the id and save;
no membership check. -/
def removeFromFavourites (s : Store) (userId : Nat) (movieId : String) :
    FavResponse × Store :=
  match findById s userId with
  | none => (.err 404 "User not found", s)
  | some u =>
      let u' : User := { u with favourites := u.favourites.filter (fun id => id != movieId) }
      (.ok "Movie removed from favourites" u'.favourites, saveUpdated s u')

/-- Response of the favourites list endpoint. -/
inductive ListResponse where
  | err (status : Nat) (message : String)
  | ok (movies : List MovieDetails)
deriving Repr, DecidableEq

/-- `getFavourites` (favouriteController.ts lines 73-103): look the user up,
resolve every favourite id through the catalog (a failed lookup becomes
`null`), filter the `null` results out, and answer the remaining movie
records (`reduceOption` is the identity unwrap of the null-free list). -/
def getFavourites (cat : Catalog) (s : Store) (userId : Nat) : ListResponse :=
  match findById s userId with
  | none => .err 404 "User not found"
  | some u =>
      let favouriteMovies := u.favourites.map cat
      let validFavourites := favouriteMovies.filter (fun m => m != none)
      .ok validFavourites.reduceOption

/-- Outcome of the authentication middleware for one request. -/
inductive MwOutcome where
  | reject (status : Nat) (message : String)
  | proceed (claims : Claims)
deriving Repr, DecidableEq

/-- JS `"...".split(' ')` on the character list: every single space starts
a new field, empty fields included. Structurally recursive so that concrete
headers evaluate inside the kernel. -/
def splitOnSpace : List Char → List (List Char)
  | [] => [[]]
  | c :: rest =>
      match splitOnSpace rest, c with
      | r :: rs, ' ' => [] :: r :: rs
      | r :: rs, c' => (c' :: r) :: rs
      | [], _ => [[]]

/-- `authHeader && authHeader.split(' ')[1]` (middleware/auth.ts line 20):
the element at index 1 of the space-split header, when the header is
present and that element exists. -/
def extractToken (authHeader : Option String) : Option String :=
  authHeader.bind (fun h => ((splitOnSpace h.data).map List.asString).get? 1)

/-- `authenticateToken` (middleware/auth.ts lines 14-43): a missing or empty
(falsy) token is rejected 401; a present token is parsed (`decode` models
the JWT library's string-level parsing) and verified, any failure is
rejected 403; otherwise the decoded claims are attached and the request
proceeds. -/
def authenticateToken (decode : String → Option SignedToken) (secret : String)
    (now : Nat) (authHeader : Option String) : MwOutcome :=
  match extractToken authHeader with
  | none => .reject 401 "Access token required"
  | some t =>
      if t = "" then .reject 401 "Access token required"
      else
        match decode t with
        | none => .reject 403 "Invalid or expired token"
        | some tok =>
            match jwtVerify tok secret now with
            | none => .reject 403 "Invalid or expired token"
            | some c => .proceed c

/-- One externally triggered operation of the modelled subsystems. -/
inductive Event where
  | reg (username email password : String)
  | logIn (email password : String)
  | add (userId : Nat) (movieId : String)
  | remove (userId : Nat) (movieId : String)
  | list (userId : Nat)
deriving Repr, DecidableEq

/-- Effect of one event on the users collection. `logIn` and `list` never
write; the signing inputs do not influence the stored state. -/
def stepStore (cat : Catalog) (secret : String) (now : Nat) (s : Store) :
    Event → Store
  | .reg username email password => (register s username email password secret now).2
  | .logIn _ _ => s
  | .add userId movieId => (addToFavourites cat s userId movieId).2
  | .remove userId movieId => (removeFromFavourites s userId movieId).2
  | .list _ => s

/-- The store after a sequence of events starting from `s`. -/
def runEvents (cat : Catalog) (secret : String) (now : Nat) (s : Store)
    (events : List Event) : Store :=
  events.foldl (stepStore cat secret now) s

/-- Every stored user's favourites list is duplicate-free. -/
def NodupFavs (s : Store) : Prop :=
  ∀ u ∈ s, u.favourites.Nodup

/-! ## Helper lemmas -/

theorem findOneByEmailOrUsername_none (s : Store) (email username : String) (u : User)
    (h : findOneByEmailOrUsername s email username = none)
    (h1 : u.email = email) :
    findOneByEmail (s ++ [u]) email = some u := by
  unfold findOneByEmail
  unfold findOneByEmailOrUsername at h
  rw [List.find?_append]
  have hnone : s.find? (fun v => v.email == email) = none := by
    rw [List.find?_eq_none] at h ⊢
    intro x hx
    have := h x hx
    simp at this ⊢
    exact this.1
  rw [hnone]
  simp [List.find?, h1]

theorem findById_id_eq (s : Store) (i : Nat) (u : User)
    (h : findById s i = some u) : u.id = i := by
  have := List.find?_some h
  simpa using this

theorem findById_saveUpdated (s : Store) (i : Nat) (u u' : User)
    (h : findById s i = some u) (hid : u'.id = u.id) :
    findById (saveUpdated s u') i = some u' := by
  have hui : u.id = i := findById_id_eq s i u h
  unfold findById saveUpdated
  rw [List.find?_map]
  have hpf : ((fun v : User => v.id == i) ∘ (fun v => if v.id == u'.id then u' else v))
      = (fun v : User => v.id == i) := by
    funext v
    by_cases hv : v.id = u'.id
    · simp [hv, hid, hui]
    · simp [hv]
  rw [hpf]
  unfold findById at h
  rw [h]
  simp [hid]

theorem filter_ne_none_reduceOption (l : List String) (f : Catalog) :
    ((l.map f).filter (fun m => m != none)).reduceOption = l.filterMap f := by
  induction l with
  | nil => simp
  | cons a t ih =>
      cases ha : f a with
      | none => simp [List.filterMap_cons, ha, ih]
      | some d => simp [List.filterMap_cons, ha, List.reduceOption_cons_of_some, ih]

theorem saveUpdated_idem (s : Store) (u : User) :
    saveUpdated (saveUpdated s u) u = saveUpdated s u := by
  unfold saveUpdated
  rw [List.map_map]
  apply List.map_congr_left
  intro v _
  simp only [Function.comp]
  by_cases hv : v.id = u.id
  · simp [hv]
  · simp [hv]

/-! ## Claim theorems -/

/-- Claim C3: for every existing user and every itemId, remove succeeds even
when the id is not a member of the favourites set, and remove is idempotent:
the second identical call never errors and yields the same response and the
same final store (hence the same final favourites set) as the first. -/
theorem removeFromFavourites_idempotent (s : Store) (userId : Nat) (movieId : String)
    (u : User) (hfind : findById s userId = some u) :
    (removeFromFavourites s userId movieId).1 =
      FavResponse.ok "Movie removed from favourites"
        (u.favourites.filter (fun id => id != movieId)) ∧
    removeFromFavourites (removeFromFavourites s userId movieId).2 userId movieId =
      removeFromFavourites s userId movieId := by
  have h1 : removeFromFavourites s userId movieId =
      (FavResponse.ok "Movie removed from favourites"
         (u.favourites.filter (fun id => id != movieId)),
       saveUpdated s
         { u with favourites := u.favourites.filter (fun id => id != movieId) }) := by
    simp [removeFromFavourites, hfind]
  refine ⟨by rw [h1], ?_⟩
  rw [h1]
  have h2 : findById
      (saveUpdated s
        { u with favourites := u.favourites.filter (fun id => id != movieId) }) userId =
      some { u with favourites := u.favourites.filter (fun id => id != movieId) } :=
    findById_saveUpdated s userId u _ hfind rfl
  simp only [removeFromFavourites, h2]
  rw [List.filter_filter]
  simp [saveUpdated_idem]

/-- Witness for C3 at a concrete store: one user holding favourite "603",
removing "7" (not a member). -/
theorem removeFromFavourites_idempotent_witness :
    (removeFromFavourites [⟨0, "alice", "alice@x.com", "h1234567", ["603"]⟩] 0 "7").1 =
      FavResponse.ok "Movie removed from favourites" ["603"] ∧
    removeFromFavourites
        (removeFromFavourites [⟨0, "alice", "alice@x.com", "h1234567", ["603"]⟩] 0 "7").2
        0 "7" =
      removeFromFavourites [⟨0, "alice", "alice@x.com", "h1234567", ["603"]⟩] 0 "7" := by
  have h := removeFromFavourites_idempotent
    [⟨0, "alice", "alice@x.com", "h1234567", ["603"]⟩] 0 "7"
    ⟨0, "alice", "alice@x.com", "h1234567", ["603"]⟩ (by decide)
  exact ⟨by rw [h.1]; decide, h.2⟩

/-- Claim C4: for every existing user, list succeeds and returns exactly the
enrichment of those favourite ids whose catalog lookup succeeds; an id whose
individual lookup fails is dropped from the result and never fails the whole
call. -/
theorem getFavourites_drops_failed_lookups (cat : Catalog) (s : Store) (userId : Nat)
    (u : User) (hfind : findById s userId = some u) :
    getFavourites cat s userId = ListResponse.ok (u.favourites.filterMap cat) := by
  simp only [getFavourites, hfind]
  rw [filter_ne_none_reduceOption]

/-- Witness for C4: a user with one resolvable favourite ("603") and one the
catalog cannot resolve ("999") gets exactly one enriched item, not an
error. -/
theorem getFavourites_drops_failed_lookups_witness :
    getFavourites (fun id => if id = "603" then some ⟨603, "The Matrix"⟩ else none)
        [⟨0, "alice", "alice@x.com", "h1234567", ["603", "999"]⟩] 0 =
      ListResponse.ok [⟨603, "The Matrix"⟩] := by
  have h := getFavourites_drops_failed_lookups
    (fun id => if id = "603" then some ⟨603, "The Matrix"⟩ else none)
    [⟨0, "alice", "alice@x.com", "h1234567", ["603", "999"]⟩] 0
    ⟨0, "alice", "alice@x.com", "h1234567", ["603", "999"]⟩ (by decide)
  rw [h]
  decide

/-- Claim C2: for every user and itemId not yet favourited that the catalog
confirms, calling add twice in immediate succession yields a success first
and the AlreadyFavorited error second; the second call leaves the store (and
hence the favourites set) unchanged, so two successes never occur. -/
theorem addToFavourites_twice (cat : Catalog) (s : Store) (u : User) (movieId : String)
    (d : MovieDetails) (hm : movieId ≠ "") (hcat : cat movieId = some d)
    (hfind : findById s u.id = some u)
    (hmem : u.favourites.contains movieId = false) :
    (addToFavourites cat s u.id movieId).1 =
      FavResponse.ok "Movie added to favourites" (u.favourites ++ [movieId]) ∧
    (addToFavourites cat (addToFavourites cat s u.id movieId).2 u.id movieId).1 =
      FavResponse.err 400 "Movie already in favourites" ∧
    (addToFavourites cat (addToFavourites cat s u.id movieId).2 u.id movieId).2 =
      (addToFavourites cat s u.id movieId).2 := by
  have hmem' : movieId ∉ u.favourites := by simpa using hmem
  have h1 : addToFavourites cat s u.id movieId =
      (FavResponse.ok "Movie added to favourites" (u.favourites ++ [movieId]),
       saveUpdated s { u with favourites := u.favourites ++ [movieId] }) := by
    simp [addToFavourites, hm, hcat, hfind, hmem']
  have h2 : findById (saveUpdated s { u with favourites := u.favourites ++ [movieId] }) u.id =
      some { u with favourites := u.favourites ++ [movieId] } :=
    findById_saveUpdated s u.id u _ hfind rfl
  have hmem2 : ({ u with favourites := u.favourites ++ [movieId] } : User).favourites.contains
      movieId = true := by
    simp
  refine ⟨by rw [h1], ?_, ?_⟩ <;>
    · rw [h1]
      simp [addToFavourites, hm, hcat, h2, hmem2]

/-- Witness for C2 at a concrete catalog, store and item. -/
theorem addToFavourites_twice_witness :
    (addToFavourites (fun id => if id = "603" then some ⟨603, "The Matrix"⟩ else none)
        [⟨0, "alice", "alice@x.com", "h1234567", []⟩] 0 "603").1 =
      FavResponse.ok "Movie added to favourites" ["603"] ∧
    (addToFavourites (fun id => if id = "603" then some ⟨603, "The Matrix"⟩ else none)
        (addToFavourites (fun id => if id = "603" then some ⟨603, "The Matrix"⟩ else none)
          [⟨0, "alice", "alice@x.com", "h1234567", []⟩] 0 "603").2 0 "603").1 =
      FavResponse.err 400 "Movie already in favourites" := by
  have h := addToFavourites_twice
    (fun id => if id = "603" then some ⟨603, "The Matrix"⟩ else none)
    [⟨0, "alice", "alice@x.com", "h1234567", []⟩]
    ⟨0, "alice", "alice@x.com", "h1234567", []⟩ "603" ⟨603, "The Matrix"⟩
    (by decide) (by decide) (by decide) (by decide)
  exact ⟨h.1, h.2.1⟩

/-- Claim C10: add consults the catalog before the membership check: when
the catalog lookup fails, add answers the upstream 404 even for an id
already in the user's favourites; and the AlreadyFavorited response is only
reachable when the catalog confirmed the item on that same call. -/
theorem addToFavourites_catalog_before_membership (cat : Catalog) (s : Store)
    (userId : Nat) (movieId : String) (hm : movieId ≠ "") :
    (cat movieId = none →
      addToFavourites cat s userId movieId = (FavResponse.err 404 "Movie not found", s)) ∧
    ((addToFavourites cat s userId movieId).1 =
        FavResponse.err 400 "Movie already in favourites" →
      ∃ d, cat movieId = some d) := by
  constructor
  · intro hcat
    simp [addToFavourites, hm, hcat]
  · intro hresp
    cases hcat : cat movieId with
    | some d => exact ⟨d, rfl⟩
    | none =>
        rw [(by simp [addToFavourites, hm, hcat] :
          addToFavourites cat s userId movieId =
            (FavResponse.err 404 "Movie not found", s))] at hresp
        simp at hresp

/-- Witness for C10: a user already holding "603" while the catalog resolves
nothing; add answers the upstream 404, not AlreadyFavorited. -/
theorem addToFavourites_catalog_before_membership_witness :
    addToFavourites (fun _ => none)
        [⟨0, "alice", "alice@x.com", "h1234567", ["603"]⟩] 0 "603" =
      (FavResponse.err 404 "Movie not found",
       [⟨0, "alice", "alice@x.com", "h1234567", ["603"]⟩]) :=
  (addToFavourites_catalog_before_membership (fun _ => none)
    [⟨0, "alice", "alice@x.com", "h1234567", ["603"]⟩] 0 "603" (by decide)).1 rfl

/-- Claim C5: a login attempt whose email matches no stored user and a login
attempt with a stored user's email but a failing password produce the same
externally observable error: the same constructor, status 401, and message
"Invalid credentials". -/
theorem login_errors_indistinguishable (s : Store) (email1 password1 email2 password2
    secret : String) (now : Nat)
    (hE1 : email1 ≠ "") (hP1 : password1 ≠ "") (hE2 : email2 ≠ "") (hP2 : password2 ≠ "")
    (habsent : findOneByEmail s email1 = none)
    (u : User) (hfound : findOneByEmail s email2 = some u)
    (hbad : bcryptCompare password2 u.password = false) :
    login s email1 password1 secret now = AuthResponse.err 401 "Invalid credentials" ∧
    login s email2 password2 secret now = AuthResponse.err 401 "Invalid credentials" := by
  constructor
  · simp [login, hE1, hP1, habsent]
  · simp [login, hE2, hP2, hfound, hbad]

/-- Witness for C5: a one-user store, a miss on an unknown email and a miss
on a wrong password for the stored email. -/
theorem login_errors_indistinguishable_witness :
    login [⟨0, "alice", "alice@x.com", bcryptHash "secret1", []⟩]
        "nobody@x.com" "whatever" "k" 0 =
      AuthResponse.err 401 "Invalid credentials" ∧
    login [⟨0, "alice", "alice@x.com", bcryptHash "secret1", []⟩]
        "alice@x.com" "wrongpw" "k" 0 =
      AuthResponse.err 401 "Invalid credentials" :=
  login_errors_indistinguishable
    [⟨0, "alice", "alice@x.com", bcryptHash "secret1", []⟩]
    "nobody@x.com" "whatever" "alice@x.com" "wrongpw" "k" 0
    (by decide) (by decide) (by decide) (by decide) (by decide)
    ⟨0, "alice", "alice@x.com", bcryptHash "secret1", []⟩ (by decide) (by decide)

/-- Claim C1: for every valid registration input against a store free of
conflicts on that email and username, register succeeds and a subsequent
login with the same email and password succeeds, returning the same user
record and a token whose userId claim equals the id of the user created by
register. -/
theorem register_then_login (s : Store) (username email password secret : String)
    (now now2 : Nat)
    (hU : username ≠ "") (hE : email ≠ "")
    (hlen3 : 3 ≤ username.length) (hlen20 : username.length ≤ 20)
    (hP : 6 ≤ password.length)
    (hfresh : findOneByEmailOrUsername s email username = none) :
    ∃ tok newUser s',
      register s username email password secret now = (AuthResponse.ok 201 tok newUser, s') ∧
      ∃ tok2,
        login s' email password secret now2 = AuthResponse.ok 200 tok2 newUser ∧
        tok2.claims.userId = newUser.id := by
  have hPne : password ≠ "" := by
    intro hc; rw [hc] at hP; simp at hP
  have hPlt : ¬password.length < 6 := by omega
  have h9 : ("bcrypt12$").length = 9 := by decide
  have hlenhash : (bcryptHash password).length = 9 + password.length := by
    simp [bcryptHash, h9]
  have hhash : 6 ≤ (bcryptHash password).length := by omega
  have hhashne : bcryptHash password ≠ "" := by
    intro hc
    have := congrArg String.length hc
    rw [hlenhash] at this
    simp at this
  have hsv : schemaValid { id := s.length, username := username, email := email,
                           password := bcryptHash password, favourites := [] } :=
    ⟨hU, hlen3, hlen20, hE, hhashne, hhash⟩
  have hreg : register s username email password secret now =
      (AuthResponse.ok 201
         (jwtSign { userId := s.length, username := username, email := email } secret now)
         { id := s.length, username := username, email := email,
           password := bcryptHash password, favourites := [] },
       s ++ [{ id := s.length, username := username, email := email,
               password := bcryptHash password, favourites := [] }]) := by
    simp [register, hfresh, hU, hE, hPne, hPlt, hsv]
  have hfound : findOneByEmail
      (s ++ [{ id := s.length, username := username, email := email,
               password := bcryptHash password, favourites := [] }]) email =
      some { id := s.length, username := username, email := email,
             password := bcryptHash password, favourites := [] } :=
    findOneByEmailOrUsername_none s email username _ hfresh rfl
  refine ⟨_, _, _, hreg,
    jwtSign { userId := s.length, username := username, email := email } secret now2,
    ?_, rfl⟩
  simp [login, hE, hPne, hfound, bcryptCompare]

/-- Witness for C1: registering alice on an empty store then logging in with
the same credentials. -/
theorem register_then_login_witness :
    ∃ tok newUser s',
      register [] "alice" "alice@x.com" "secret1" "k" 0 =
        (AuthResponse.ok 201 tok newUser, s') ∧
      ∃ tok2,
        login s' "alice@x.com" "secret1" "k" 5 = AuthResponse.ok 200 tok2 newUser ∧
        tok2.claims.userId = newUser.id :=
  register_then_login [] "alice" "alice@x.com" "secret1" "k" 0 5
    (by decide) (by decide) (by decide) (by decide) (by decide) (by decide)

/-- Counterexample to claim C6: with user "bob"/"a@x.com" stored before
user "carol"/"b@x.com", registering ("bob", "b@x.com") reports the username
conflict even though the email "b@x.com" already belongs to a stored user,
because the single `$or` lookup returns the first matching document. -/
theorem register_conflict_counterexample :
    (register [⟨0, "bob", "a@x.com", "h1234567", []⟩,
               ⟨1, "carol", "b@x.com", "h2234567", []⟩]
       "bob" "b@x.com" "secret1" "k" 0).1 =
      AuthResponse.err 400 "Username already taken" ∧
    (findOneByEmail [⟨0, "bob", "a@x.com", "h1234567", []⟩,
                     ⟨1, "carol", "b@x.com", "h2234567", []⟩] "b@x.com").isSome = true := by
  decide

/-- Amended C6: on a conflict, the reported field is decided by the first
stored user (in insertion order) matching either the email or the username:
the email is named exactly when that first matching user's email equals the
submitted email. In particular registering twice with the same email and a
different username names the email, but a username collision with an
earlier-stored different user is reported as a username conflict even when
the email also already exists. -/
theorem register_conflict_field (s : Store) (username email password secret : String)
    (now : Nat) (hU : username ≠ "") (hE : email ≠ "") (hP : ¬password.length < 6)
    (w : User) (hfound : findOneByEmailOrUsername s email username = some w) :
    (register s username email password secret now).1 =
      AuthResponse.err 400
        (if w.email = email then "Email already registered"
         else "Username already taken") := by
  have hPne : password ≠ "" := by
    intro hc; rw [hc] at hP; simp at hP
  simp [register, hU, hE, hPne, hP, hfound]

/-- Witness for the amended C6: registering a second account with the
already-stored email "alice@x.com" and a fresh username names the email. -/
theorem register_conflict_field_witness :
    (register [⟨0, "alice", "alice@x.com", "h1234567", []⟩]
       "bob" "alice@x.com" "secret1" "k" 0).1 =
      AuthResponse.err 400 "Email already registered" := by
  have h := register_conflict_field [⟨0, "alice", "alice@x.com", "h1234567", []⟩]
    "bob" "alice@x.com" "secret1" "k" 0 (by decide) (by decide) (by decide)
    ⟨0, "alice", "alice@x.com", "h1234567", []⟩ (by decide)
  rw [h]
  decide

/-- Counterexample to claim C7: a register call with the 2-character
username "ab" passes every controller-level check, fails the schema's
minimum-length validation inside save, and is answered with a 500 server
error — not a 400 ValidationError. -/
theorem register_short_username_counterexample :
    (register [] "ab" "a@x.com" "secret1" "k" 0).1 =
      AuthResponse.err 500 "Server error during registration" := by
  decide

/-- Amended C7: the controller itself validates only field presence and
password length (≥6), answering those with a 400 ValidationError; the
username length bound (≥3) is enforced only by the persistence schema at
save time and surfaces as a 500 server error, and email shape is not
validated at all, so a 1- or 2-character username is rejected with a 500
server error rather than a ValidationError. -/
theorem register_validation_behaviour (s : Store)
    (username email password secret : String) (now : Nat) :
    ((username = "" ∨ email = "" ∨ password = "") →
      (register s username email password secret now).1 =
        AuthResponse.err 400 "All fields are required") ∧
    (¬(username = "" ∨ email = "" ∨ password = "") → password.length < 6 →
      (register s username email password secret now).1 =
        AuthResponse.err 400 "Password must be at least 6 characters") ∧
    (¬(username = "" ∨ email = "" ∨ password = "") → ¬password.length < 6 →
      findOneByEmailOrUsername s email username = none → username.length < 3 →
      (register s username email password secret now).1 =
        AuthResponse.err 500 "Server error during registration") := by
  refine ⟨?_, ?_, ?_⟩
  · intro h
    simp [register, h]
  · intro h hlen
    simp [register, h, hlen]
  · intro h hlen hfresh hshort
    have hnsv : ¬schemaValid { id := s.length, username := username, email := email,
                               password := bcryptHash password, favourites := [] } := by
      intro hsv
      have h3 := hsv.2.1
      simp at h3
      omega
    simp [register, h, hlen, hfresh, hnsv]

/-- Witness for the amended C7, one concrete input per validation branch. -/
theorem register_validation_behaviour_witness :
    (register [] "" "a@x.com" "secret1" "k" 0).1 =
      AuthResponse.err 400 "All fields are required" ∧
    (register [] "alice" "a@x.com" "abc" "k" 0).1 =
      AuthResponse.err 400 "Password must be at least 6 characters" ∧
    (register [] "ab" "a@x.com" "secret1" "k" 0).1 =
      AuthResponse.err 500 "Server error during registration" :=
  ⟨(register_validation_behaviour [] "" "a@x.com" "secret1" "k" 0).1 (by decide),
   (register_validation_behaviour [] "alice" "a@x.com" "abc" "k" 0).2.1
     (by decide) (by decide),
   (register_validation_behaviour [] "ab" "a@x.com" "secret1" "k" 0).2.2
     (by decide) (by decide) (by decide) (by decide)⟩

/-- Claim C8: the middleware answers 401 exactly when no (non-empty) token
is supplied; answers 403 whenever a supplied token fails to parse or fails
verification — in particular any token whose expiry is not in the future is
rejected 403 regardless of whether its signature matches; and otherwise
attaches the decoded claims and proceeds. The four cases cover every
possible input, so no other outcome is possible. -/
theorem authenticateToken_outcomes (decode : String → Option SignedToken)
    (secret : String) (now : Nat) (authHeader : Option String) :
    ((extractToken authHeader = none ∨ extractToken authHeader = some "") →
      authenticateToken decode secret now authHeader =
        MwOutcome.reject 401 "Access token required") ∧
    (∀ t, extractToken authHeader = some t → t ≠ "" → decode t = none →
      authenticateToken decode secret now authHeader =
        MwOutcome.reject 403 "Invalid or expired token") ∧
    (∀ t tok, extractToken authHeader = some t → t ≠ "" → decode t = some tok →
      (tok.secret ≠ secret ∨ tok.expiresAt ≤ now) →
      authenticateToken decode secret now authHeader =
        MwOutcome.reject 403 "Invalid or expired token") ∧
    (∀ t tok, extractToken authHeader = some t → t ≠ "" → decode t = some tok →
      tok.secret = secret → now < tok.expiresAt →
      authenticateToken decode secret now authHeader =
        MwOutcome.proceed tok.claims) := by
  refine ⟨?_, ?_, ?_, ?_⟩
  · rintro (h | h) <;> simp [authenticateToken, h]
  · intro t ht hne hdec
    simp [authenticateToken, ht, hne, hdec]
  · intro t tok ht hne hdec hbad
    have hver : jwtVerify tok secret now = none := by
      unfold jwtVerify
      rw [if_neg]
      rintro ⟨h1, h2⟩
      rcases hbad with hb | hb
      · exact hb h1
      · omega
    simp [authenticateToken, ht, hne, hdec, hver]
  · intro t tok ht hne hdec hsec hfut
    have hver : jwtVerify tok secret now = some tok.claims := by
      unfold jwtVerify
      rw [if_pos ⟨hsec, hfut⟩]
    simp [authenticateToken, ht, hne, hdec, hver]

/-- Witness for C8: an expired token with the correct signing secret is
rejected 403, and a missing header is rejected 401. -/
theorem authenticateToken_outcomes_witness :
    authenticateToken
        (fun t => if t = "tok" then some ⟨⟨0, "alice", "alice@x.com"⟩, "k", 5⟩ else none)
        "k" 10 (some "Bearer tok") =
      MwOutcome.reject 403 "Invalid or expired token" ∧
    authenticateToken
        (fun t => if t = "tok" then some ⟨⟨0, "alice", "alice@x.com"⟩, "k", 5⟩ else none)
        "k" 10 none =
      MwOutcome.reject 401 "Access token required" :=
  ⟨(authenticateToken_outcomes
      (fun t => if t = "tok" then some ⟨⟨0, "alice", "alice@x.com"⟩, "k", 5⟩ else none)
      "k" 10 (some "Bearer tok")).2.2.1 "tok" ⟨⟨0, "alice", "alice@x.com"⟩, "k", 5⟩
      (by decide) (by decide) (by decide) (Or.inr (by decide)),
   (authenticateToken_outcomes
      (fun t => if t = "tok" then some ⟨⟨0, "alice", "alice@x.com"⟩, "k", 5⟩ else none)
      "k" 10 none).1 (Or.inl rfl)⟩

/-! ### Preservation of the duplicate-free favourites invariant (C9) -/

theorem nodupFavs_saveUpdated (s : Store) (u' : User) (hs : NodupFavs s)
    (hu' : u'.favourites.Nodup) : NodupFavs (saveUpdated s u') := by
  intro v hv
  unfold saveUpdated at hv
  rw [List.mem_map] at hv
  obtain ⟨w, hw, hvw⟩ := hv
  by_cases h : w.id = u'.id
  · rw [if_pos (by simp [h])] at hvw
    rw [← hvw]
    exact hu'
  · rw [if_neg (by simp [h])] at hvw
    rw [← hvw]
    exact hs w hw

theorem register_store_cases (s : Store) (username email password secret : String)
    (now : Nat) :
    (register s username email password secret now).2 = s ∨
    ∃ u : User, u.favourites = [] ∧
      (register s username email password secret now).2 = s ++ [u] := by
  simp only [register]
  split
  · exact Or.inl rfl
  · split
    · exact Or.inl rfl
    · split
      · exact Or.inl rfl
      · split
        · exact Or.inr ⟨_, rfl, rfl⟩
        · exact Or.inl rfl

theorem nodupFavs_register (s : Store) (username email password secret : String)
    (now : Nat) (hs : NodupFavs s) :
    NodupFavs (register s username email password secret now).2 := by
  rcases register_store_cases s username email password secret now with h | ⟨u, hfav, h⟩
  · rw [h]; exact hs
  · rw [h]
    intro v hv
    rw [List.mem_append] at hv
    rcases hv with hv | hv
    · exact hs v hv
    · rw [List.mem_singleton] at hv
      rw [hv, hfav]
      exact List.nodup_nil

theorem addToFavourites_store_cases (cat : Catalog) (s : Store) (userId : Nat)
    (movieId : String) :
    (addToFavourites cat s userId movieId).2 = s ∨
    ∃ u : User, findById s userId = some u ∧ movieId ∉ u.favourites ∧
      (addToFavourites cat s userId movieId).2 =
        saveUpdated s { u with favourites := u.favourites ++ [movieId] } := by
  unfold addToFavourites
  split
  · exact Or.inl rfl
  · split
    · exact Or.inl rfl
    · split
      · exact Or.inl rfl
      · rename_i u hfind
        split
        · exact Or.inl rfl
        · rename_i hmem
          exact Or.inr ⟨u, hfind, by simpa using hmem, rfl⟩

theorem nodupFavs_add (cat : Catalog) (s : Store) (userId : Nat) (movieId : String)
    (hs : NodupFavs s) : NodupFavs (addToFavourites cat s userId movieId).2 := by
  rcases addToFavourites_store_cases cat s userId movieId with h | ⟨u, hfind, hmem, h⟩
  · rw [h]; exact hs
  · rw [h]
    apply nodupFavs_saveUpdated s _ hs
    have hu : u ∈ s := List.mem_of_find?_eq_some hfind
    have hnd : u.favourites.Nodup := hs u hu
    simp [List.nodup_append, hnd, hmem]

theorem nodupFavs_remove (s : Store) (userId : Nat) (movieId : String)
    (hs : NodupFavs s) : NodupFavs (removeFromFavourites s userId movieId).2 := by
  unfold removeFromFavourites
  split
  · exact hs
  · rename_i u hfind
    apply nodupFavs_saveUpdated s _ hs
    exact (hs u (List.mem_of_find?_eq_some hfind)).filter _

theorem nodupFavs_step (cat : Catalog) (secret : String) (now : Nat) (s : Store)
    (e : Event) (hs : NodupFavs s) : NodupFavs (stepStore cat secret now s e) := by
  cases e with
  | reg username email password => exact nodupFavs_register s username email password secret now hs
  | logIn email password => exact hs
  | add userId movieId => exact nodupFavs_add cat s userId movieId hs
  | remove userId movieId => exact nodupFavs_remove s userId movieId hs
  | list userId => exact hs

theorem nodupFavs_runEvents (cat : Catalog) (secret : String) (now : Nat) (s : Store)
    (events : List Event) (hs : NodupFavs s) :
    NodupFavs (runEvents cat secret now s events) := by
  induction events generalizing s with
  | nil => exact hs
  | cons e t ih => exact ih _ (nodupFavs_step cat secret now s e hs)

/-- Claim C9: starting from the empty store (every registration creates its
user with an empty favourites list), after any sequence of operations no
stored user's favourites contains a duplicate id. -/
theorem favourites_never_duplicated (cat : Catalog) (secret : String) (now : Nat)
    (events : List Event) (u : User)
    (hu : u ∈ runEvents cat secret now [] events) :
    u.favourites.Nodup :=
  nodupFavs_runEvents cat secret now [] events (by intro v hv; simp at hv) u hu

/-- Witness for C9: a concrete run (register, two adds, one remove) whose
surviving user holds the duplicate-free favourites list ["604"]. -/
theorem favourites_never_duplicated_witness :
    (⟨0, "alice", "alice@x.com", bcryptHash "secret1", ["604"]⟩ : User).favourites.Nodup :=
  favourites_never_duplicated (fun _ => some ⟨0, "m"⟩) "k" 0
    [.reg "alice" "alice@x.com" "secret1", .add 0 "603", .add 0 "604", .remove 0 "603"]
    ⟨0, "alice", "alice@x.com", bcryptHash "secret1", ["604"]⟩ (by decide)

end Pellicula
